import Mathlib

/-!
# Verification of the Photography-Optimizer batch conversion pipeline

Shallow embedding of the core of the repository (src/app/core/converter.py,
exif.py, gallery_data.py, models.py, validation.py, and the validation /
start-up path of src/app/ui/main_window.py) together with proofs of the
specification claims about it.

Modelling conventions:
* Python floats are modelled as exact rationals (`Rat`); the numeric claims
  under scrutiny only involve values on which the two agree.
* Filesystem paths are modelled by their final-component names (`String`);
  the outcome of each per-file I/O operation performed by
  `BatchConverter.run` (`Image.open`, `Image.save`, the two `stat` calls) is
  supplied by an explicit `FileWorld` oracle, so a theorem quantifying over
  worlds covers every possible pattern of per-file failures.
* Fallible Python operations are embedded with `Option`/`Except`; code that
  catches exceptions is embedded by matching on those results.
-/

namespace PhotoOpt

/-! ## Python string primitives used by the sources -/

/-- Whitespace recognised by Python's `str.strip()` (ASCII subset, which is
all the repository ever feeds it). -/
def isPySpace (c : Char) : Bool :=
  c == ' ' || c == '\t' || c == '\n' || c == '\r' || c == '\x0b' || c == '\x0c'

/-- Python `str.strip()` with no argument: drop leading and trailing
whitespace. -/
def pyStrip (s : String) : String :=
  String.mk (((s.data.dropWhile isPySpace).reverse.dropWhile isPySpace).reverse)

/-- Python `str.rstrip(c)` for a single strip character `c`: drop trailing
occurrences of `c`. -/
def rstripChar (c : Char) (s : String) : String :=
  String.mk ((s.data.reverse.dropWhile (fun x => x == c)).reverse)

/-- Index of the last occurrence of `c` in the list, as used by
`str.rfind`. -/
def rfindChar (c : Char) : List Char → Option Nat
  | [] => none
  | x :: rest =>
    match (rfindChar c rest).map (· + 1) with
    | some j => some j
    | none => if x = c then some 0 else none

/-- `pathlib.PurePath.stem`: the final component without its suffix.  The
suffix is `name[i:]` for the last dot index `i` when `0 < i < len - 1`;
otherwise the stem is the whole name. -/
def pyStem (name : String) : String :=
  let cs := name.data
  match rfindChar '.' cs with
  | none => name
  | some i => if 0 < i ∧ i < cs.length - 1 then String.mk (cs.take i) else name

/-- Numeric value of a list of decimal digit characters. -/
def digitsVal (cs : List Char) : Nat :=
  cs.foldl (fun acc c => acc * 10 + (c.toNat - '0'.toNat)) 0

/-- Python `int(text)` on a stripped string: optional sign followed by a
non-empty run of decimal digits; everything else raises `ValueError`. -/
def pyInt (s : String) : Except String Int :=
  let bad : Except String Int :=
    Except.error ("invalid literal for int() with base 10: " ++ s)
  match (pyStrip s).data with
  | [] => bad
  | c :: rest =>
    if c = '-' then
      if rest ≠ [] ∧ rest.all Char.isDigit then Except.ok (-(Int.ofNat (digitsVal rest)))
      else bad
    else if c = '+' then
      if rest ≠ [] ∧ rest.all Char.isDigit then Except.ok (Int.ofNat (digitsVal rest))
      else bad
    else if (c :: rest).all Char.isDigit then Except.ok (Int.ofNat (digitsVal (c :: rest)))
    else bad

/-! ## Fixed-point decimal formatting (Python `format(x, ".Nf")`)

Python formats a float to `N` decimal places with round-half-even and keeps
the sign of the value (so `-0.04` at one decimal prints `-0.0`). -/

/-- Subtraction on `Rat` via `mkRat` (value-equal to `Rat.sub`, but
kernel-computable: the library operation is `@[irreducible]`). -/
def ratSub (a b : Rat) : Rat :=
  mkRat (a.num * (b.den : Int) - b.num * (a.den : Int)) (a.den * b.den)

/-- Multiplication on `Rat` via `mkRat` (value-equal to `Rat.mul`, but
kernel-computable). -/
def ratMul (a b : Rat) : Rat := mkRat (a.num * b.num) (a.den * b.den)

/-- Division on `Rat` via `mkRat` (value-equal to `Rat.div`, but
kernel-computable; division by zero yields zero, a case the callers below
always guard). -/
def ratDiv (a b : Rat) : Rat :=
  if 0 ≤ b.num then mkRat (a.num * (b.den : Int)) (a.den * b.num.natAbs)
  else mkRat (-(a.num * (b.den : Int))) (a.den * b.num.natAbs)

/-- Absolute value on `Rat`, kept as an explicit definition so that every
use is kernel-computable. -/
def ratAbs (x : Rat) : Rat := if x < 0 then -x else x

/-- Round to the nearest integer, ties to even (the rounding used by
Python's fixed-point float formatting). -/
def roundHalfEven (x : Rat) : Int :=
  let f := x.floor
  let fr := ratSub x (mkRat f 1)
  if fr < mkRat 1 2 then f
  else if mkRat 1 2 < fr then f + 1
  else if f % 2 = 0 then f else f + 1

/-- Left-pad the decimal representation of `n` with zeros to width `len`. -/
def natPad (n : Nat) (len : Nat) : String :=
  let s := toString n
  if s.length < len then String.mk (List.replicate (len - s.length) '0') ++ s else s

/-- Python `f"{q:.{prec}f}"` on the exact rational value `q`. -/
def pyFormatFixed (q : Rat) (prec : Nat) : String :=
  let m : Int := roundHalfEven (ratMul (ratAbs q) (mkRat (Int.ofNat (10 ^ prec)) 1))
  let mn : Nat := m.toNat
  let base : Nat := 10 ^ prec
  let sign : String := if q < 0 then "-" else ""
  if prec = 0 then sign ++ toString (mn / base)
  else sign ++ toString (mn / base) ++ "." ++ natPad (mn % base) prec

/-! ## `fractions.Fraction.limit_denominator` (CPython algorithm)

Transliterated from CPython's `fractions.py`; the repository calls it with a
positive argument (`0 < number < 1`), which is the regime modelled here. -/

/-- The convergent-building loop of `limit_denominator`: Python's
`while True` loop over `p0, q0, p1, q1` and `n, d`, stopping as soon as the
next convergent's denominator `q2` would exceed `maxd`.  Recursion is
driven by a fuel argument (the caller passes the initial `d`); `d` strictly
decreases on every iteration, so fuel of that size can only run out once
`d = 0`, where Python's loop has necessarily broken already (the convergent
denominators end at `q.den > maxd`). -/
def cfLoop (maxd : Nat) (fuel : Nat) (p0 q0 p1 q1 n d : Nat) : Nat × Nat × Nat × Nat :=
  match fuel, d with
  | 0, _ => (p0, q0, p1, q1)
  | _ + 1, 0 => (p0, q0, p1, q1)
  | fuel' + 1, _ =>
    let a := n / d
    let q2 := q0 + a * q1
    if maxd < q2 then (p0, q0, p1, q1)
    else cfLoop maxd fuel' p1 q1 (p0 + a * p1) q2 d (n % d)

/-- `Fraction(q).limit_denominator(maxd)`: the closest fraction to `q` with
denominator at most `maxd` (for the positive arguments the repository
produces). -/
def limitDenominator (q : Rat) (maxd : Nat) : Rat :=
  if q.den ≤ maxd then q
  else
    let r := cfLoop maxd q.den 0 1 1 0 q.num.natAbs q.den
    let p0 := r.1
    let q0 := r.2.1
    let p1 := r.2.2.1
    let q1 := r.2.2.2
    let k := (maxd - q0) / q1
    let b1 : Rat := mkRat (Int.ofNat (p0 + k * p1)) (q0 + k * q1)
    let b2 : Rat := mkRat (Int.ofNat p1) q1
    if ratAbs (ratSub b2 q) ≤ ratAbs (ratSub b1 q) then b2 else b1

/-! ## EXIF value model (src/app/core/exif.py) -/

/-- The kinds of raw EXIF tag values `_to_float` distinguishes: a
rational-like object carrying `numerator`/`denominator` attributes, a
2-tuple of numbers, a plain `int`, a plain `float` (modelled exactly), or a
string (which `_to_float` rejects). -/
inductive PyVal where
  | rational (num : Int) (den : Nat)
  | pair (a b : Rat)
  | int (n : Int)
  | float (q : Rat)
  | str (s : String)
deriving DecidableEq, Repr

/-- Python truthiness for the tag values that can appear in the extractor's
`or` chain. -/
def pyTruthy : PyVal → Bool
  | .rational n _ => n ≠ 0
  | .pair _ _ => true
  | .int n => n ≠ 0
  | .float q => q ≠ 0
  | .str s => s ≠ ""

/-- `exif._to_float`: `None` stays `None`; a rational-like value converts to
its quotient unless the denominator is zero; a 2-tuple with non-zero second
component converts to its quotient; plain numbers convert directly;
anything else yields no value. -/
def to_float : Option PyVal → Option Rat
  | none => none
  | some v =>
    match v with
    | .rational n d => if d ≠ 0 then some (mkRat n d) else none
    | .pair a b => if b ≠ 0 then some (ratDiv a b) else none
    | .int n => some (n : Rat)
    | .float q => some q
    | .str _ => none

/-- `exif._format_fraction`: omit for unconvertible or non-positive values;
below 1, render `limit_denominator(8000)` as `"num/den"`; at or above 1,
render as a 4-decimal fixed string with trailing zeros and a trailing dot
stripped.  (The source's 6-decimal fallback guards `Fraction` construction
errors that cannot arise for finite values, i.e. in this model.) -/
def format_fraction (value : Option PyVal) : Option String :=
  match to_float value with
  | none => none
  | some number =>
    if number ≤ 0 then none
    else if number < 1 then
      let fr := limitDenominator number 8000
      some (toString fr.num ++ "/" ++ toString fr.den)
    else some (rstripChar '.' (rstripChar '0' (pyFormatFixed number 4)))

/-- The `PIL.ExifTags.TAGS` entries for the tag ids the extractor consults. -/
def TAGS : Nat → Option String
  | 271 => some "Make"
  | 272 => some "Model"
  | 305 => some "Software"
  | 315 => some "Artist"
  | 33434 => some "ExposureTime"
  | 33437 => some "FNumber"
  | 34855 => some "ISOSpeedRatings"
  | 36867 => some "DateTimeOriginal"
  | 37386 => some "FocalLength"
  | 42052 => some "LensModel"
  | _ => none

/-- `exif._tag_map`: map tag ids to names, falling back to the decimal id
string. -/
def tag_map (l : List (Nat × PyVal)) : List (String × PyVal) :=
  l.map (fun p => ((TAGS p.1).getD (toString p.1), p.2))

/-- `dict.get` over an insertion-ordered association list in which later
bindings overwrite earlier ones (Python dict semantics). -/
def dictGet (l : List (String × PyVal)) (k : String) : Option PyVal :=
  match l with
  | [] => none
  | (k', v) :: rest =>
    match dictGet rest k with
    | some r => some r
    | none => if k' = k then some v else none

/-- Python `a or b` on two `dict.get` results: the first operand if it is
truthy, otherwise the second. -/
def pyOr (a b : Option PyVal) : Option PyVal :=
  match a with
  | some v => if pyTruthy v then some v else b
  | none => b

instance {ε α : Type _} [DecidableEq ε] [DecidableEq α] : DecidableEq (Except ε α) := fun x y =>
  match x, y with
  | .ok a, .ok b =>
    if h : a = b then .isTrue (congrArg Except.ok h)
    else .isFalse (fun he => h (Except.ok.inj he))
  | .error a, .error b =>
    if h : a = b then .isTrue (congrArg Except.error h)
    else .isFalse (fun he => h (Except.error.inj he))
  | .ok _, .error _ => .isFalse Except.noConfusion
  | .error _, .ok _ => .isFalse Except.noConfusion

/-- A decoded image as the extractor sees it: pixel dimensions, the
top-level EXIF tags (`image.getexif()`, empty list when falsy), whether the
EXIF object has a `get_ifd` attribute, and the outcome of
`get_ifd(ExifTags.IFD.Exif)` — which is fallible, exactly the failure the
source guards with `try/except`. -/
structure ImageHandle where
  width : Nat
  height : Nat
  exifTags : List (Nat × PyVal)
  hasGetIfd : Bool
  getIfdResult : Except String (List (Nat × PyVal))
deriving DecidableEq, Repr

/-- The name-keyed tag dictionary `exif_by_name` built by
`extract_exif_data` before per-field processing, including the swallowed
EXIF-IFD merge. -/
def exifByName (img : ImageHandle) : List (String × PyVal) :=
  let base := if img.exifTags.isEmpty then [] else tag_map img.exifTags
  if img.exifTags.isEmpty = false ∧ img.hasGetIfd then
    match img.getIfdResult with
    | .ok ifd => if ifd.isEmpty then base else base ++ tag_map ifd
    | .error _ => base
  else base

/-- A value in the extractor's output mapping: a formatted string, an
integer (the pixel dimensions), or an untransformed raw tag value. -/
inductive MetaVal where
  | str (s : String)
  | int (n : Int)
  | raw (v : PyVal)
deriving DecidableEq, Repr

/-- `value in (None, "")` for present values: only the empty string is
dropped by the final cleaning comprehension. -/
def isEmptyString : MetaVal → Bool
  | .str s => s = ""
  | .raw (.str s) => s = ""
  | _ => false

/-- The `data` dictionary of `extract_exif_data`, field by field, before
cleaning.  `none` stands for Python `None`. -/
def extractData (img : ImageHandle) : List (String × Option MetaVal) :=
  let ebn := exifByName img
  let iso := pyOr (dictGet ebn "ISOSpeedRatings") (dictGet ebn "PhotographicSensitivity")
  let aperture_float := to_float (dictGet ebn "FNumber")
  let focal_length_float := to_float (dictGet ebn "FocalLength")
  [("iso", iso.map MetaVal.raw),
   ("shutter_speed", (format_fraction (dictGet ebn "ExposureTime")).map MetaVal.str),
   ("aperture",
     match aperture_float with
     | some q => if q = 0 then none else some (MetaVal.str ("f/" ++ pyFormatFixed q 1))
     | none => none),
   ("camera_model", (dictGet ebn "Model").map MetaVal.raw),
   ("camera_make", (dictGet ebn "Make").map MetaVal.raw),
   ("lens", (dictGet ebn "LensModel").map MetaVal.raw),
   ("focal_length",
     match focal_length_float with
     | some q => if q = 0 then none else some (MetaVal.str (pyFormatFixed q 0 ++ "mm"))
     | none => none),
   ("datetime_original", (dictGet ebn "DateTimeOriginal").map MetaVal.raw),
   ("software", (dictGet ebn "Software").map MetaVal.raw),
   ("artist", (dictGet ebn "Artist").map MetaVal.raw),
   ("image_width", some (MetaVal.int (img.width : Int))),
   ("image_height", some (MetaVal.int (img.height : Int)))]

/-- `exif.extract_exif_data`: the cleaned mapping, dropping absent values
and empty strings.  Total: the only fallible sub-operation (`get_ifd`) is
caught inside `exifByName`, mirroring the source's `try/except`. -/
def extract_exif_data (img : ImageHandle) : List (String × MetaVal) :=
  (extractData img).filterMap
    (fun p =>
      match p.2 with
      | some v => if isEmptyString v then none else some (p.1, v)
      | none => none)

/-! ## Data model (src/app/core/models.py)

`input_files` are modelled by their final-component names; `output_dir` by a
plain path string. The `preserve_aspect_ratio` field is called
`preserve_aspect` here (same meaning as in the source). -/

structure ConversionOptions where
  input_files : List String
  output_dir : String
  quality : Nat
  export_name : Option String := none
  api_base_url : Option String := none
  resize_enabled : Bool := false
  resize_width : Option Int := none
  resize_height : Option Int := none
  preserve_aspect : Bool := true
deriving DecidableEq, Repr

structure ConvertedImageRecord where
  source_file : String
  output_file : String
  api_url : Option String
  metadata : List (String × MetaVal)
deriving DecidableEq, Repr

structure BatchResult where
  total : Nat
  succeeded : Nat
  failed : Nat
  gallery_json_path : String
  input_total_bytes : Nat
  output_total_bytes : Nat
deriving DecidableEq, Repr

/-- `BatchResult.bytes_saved`: the plain integer difference of the byte
totals, with no clamping. -/
def BatchResult.bytes_saved (r : BatchResult) : Int :=
  (r.input_total_bytes : Int) - (r.output_total_bytes : Int)

/-- `BatchResult.compression_rate_percent` (floats modelled as rationals). -/
def BatchResult.compression_rate_percent (r : BatchResult) : Rat :=
  if r.input_total_bytes ≤ 0 then 0
  else ratMul (ratDiv (r.bytes_saved : Rat) (r.input_total_bytes : Rat)) (mkRat 100 1)

/-! ## Manifest writer (src/app/core/gallery_data.py) -/

def GALLERY_FILENAME : String := "gallery-data.json"

/-- `gallery_data.build_api_url`: `None` for an absent or empty base URL;
otherwise the base with trailing slashes stripped, a slash, and the output
name. -/
def build_api_url (base_url : Option String) (output_name : String) : Option String :=
  match base_url with
  | none => none
  | some b => if b = "" then none else some (rstripChar '/' b ++ "/" ++ output_name)

/-! ## Conflict detection (src/app/core/validation.py) -/

structure OutputConflicts where
  gallery_json_exists : Bool
  duplicate_files : List String
deriving DecidableEq, Repr

/-- `OutputConflicts.has_conflicts`. -/
def OutputConflicts.has_conflicts (c : OutputConflicts) : Bool :=
  c.gallery_json_exists || !c.duplicate_files.isEmpty

/-- `validation.resolve_effective_output_dir`. -/
def resolve_effective_output_dir (base_output_dir : String) : String :=
  base_output_dir ++ "/" ++ "exported"

/-- `validation.detect_output_conflicts`, with the read-only filesystem
probe supplied as the predicate `disk_exists`. -/
def detect_output_conflicts (disk_exists : String → Bool) (opts : ConversionOptions)
    (expected_output_names : List String) : OutputConflicts :=
  { gallery_json_exists := disk_exists (opts.output_dir ++ "/" ++ GALLERY_FILENAME),
    duplicate_files :=
      expected_output_names.filter (fun name => disk_exists (opts.output_dir ++ "/" ++ name)) }

/-! ## Batch converter (src/app/core/converter.py) -/

/-- `BatchConverter._build_output_name`: the whole output-naming rule of the
source.  It consults only the export name, the source's stem and the 1-based
index — no filesystem state. -/
def build_output_name (source_name : String) (opts : ConversionOptions) (index : Nat) : String :=
  match opts.export_name with
  | some en =>
    if en ≠ "" ∧ pyStrip en ≠ "" then pyStrip en ++ "-" ++ toString index ++ ".webp"
    else pyStem source_name ++ ".webp"
  | none => pyStem source_name ++ ".webp"

/-- `BatchConverter.get_expected_output_names`: the per-index names, built
with the identical rule and no I/O (its arguments contain no filesystem
oracle at all). -/
def get_expected_output_names (opts : ConversionOptions) : List String :=
  (List.enumFrom 1 opts.input_files).map (fun p => build_output_name p.2 opts p.1)

/-- The outcome of every fallible per-file operation performed by the body
of the `run` loop: `Image.open` (a decoded image, or an exception),
`Image.save`, `source_path.stat()` (the size, or an exception), and
`output_path.stat()`. -/
structure FileWorld where
  open_result : Option ImageHandle
  save_ok : Bool
  stat_source : Option Nat
  stat_output : Option Nat
deriving Repr

/-- Observable events of a run: one attempt per input file (carrying the
output name the loop computed for it), and the manifest write. -/
inductive RunEvent where
  | fileAttempt (index : Nat) (source_name : String) (output_name : String)
  | manifestWrite (payload : List ConvertedImageRecord)
deriving DecidableEq, Repr

/-- Mutable state of the `run` loop. -/
structure RunState where
  succeeded : Nat
  failed : Nat
  input_total : Nat
  output_total : Nat
  records : List ConvertedImageRecord
  events : List RunEvent
deriving DecidableEq, Repr

/-- One iteration of the `for` loop in `BatchConverter.run`, transliterated:
the `try` body in order (`_build_output_name`, `Image.open`,
`extract_exif_data`, resize, `save`, the two `stat` accumulations, the
record append, the success increment), with every exception routed to the
`except` branch that increments `failed`.  The pixel result of the resize
step is not observable in this model (the save outcome comes from the
world), so the call is not repeated here. -/
def processFile (opts : ConversionOptions) (index : Nat) (name : String) (w : FileWorld)
    (st : RunState) : RunState :=
  let output_name := build_output_name name opts index
  let st1 := { st with events := st.events ++ [RunEvent.fileAttempt index name output_name] }
  match w.open_result with
  | none => { st1 with failed := st1.failed + 1 }
  | some image =>
    if w.save_ok = false then { st1 with failed := st1.failed + 1 }
    else
      match w.stat_source with
      | none => { st1 with failed := st1.failed + 1 }
      | some in_bytes =>
        let st2 := { st1 with input_total := st1.input_total + in_bytes }
        match w.stat_output with
        | none => { st2 with failed := st2.failed + 1 }
        | some out_bytes =>
          { st2 with
            output_total := st2.output_total + out_bytes,
            records := st2.records ++ [{
              source_file := name,
              output_file := output_name,
              api_url := build_api_url opts.api_base_url output_name,
              metadata := extract_exif_data image }],
            succeeded := st2.succeeded + 1 }

/-- The `for` loop of `run` over the enumerated input files. -/
def runLoop (opts : ConversionOptions) (world : Nat → FileWorld) :
    List (Nat × String) → RunState → RunState
  | [], st => st
  | p :: rest, st => runLoop opts world rest (processFile opts p.1 p.2 (world p.1) st)

/-- The full output of a run: the returned `BatchResult`, the accumulated
records handed to `write_gallery_data`, and the event trace. -/
structure RunOutput where
  result : BatchResult
  records : List ConvertedImageRecord
  events : List RunEvent
deriving DecidableEq, Repr

/-- `BatchConverter.run`: iterate the loop from an empty state, then write
the manifest exactly once over the accumulated records and return the
aggregate result.  (`output_dir.mkdir` is modelled as succeeding; its
failure aborts the run before anything below happens.) -/
def run (opts : ConversionOptions) (world : Nat → FileWorld) : RunOutput :=
  let st := runLoop opts world (List.enumFrom 1 opts.input_files)
    { succeeded := 0, failed := 0, input_total := 0, output_total := 0,
      records := [], events := [] }
  { result := {
      total := opts.input_files.length,
      succeeded := st.succeeded,
      failed := st.failed,
      gallery_json_path := opts.output_dir ++ "/" ++ GALLERY_FILENAME,
      input_total_bytes := st.input_total,
      output_total_bytes := st.output_total },
    records := st.records,
    events := st.events ++ [RunEvent.manifestWrite st.records] }

/-- The record a given file contributes when its whole per-file sequence
succeeds, and `none` when any step fails (characterisation used in the loop
lemmas). -/
def recordOf (opts : ConversionOptions) (index : Nat) (name : String) (w : FileWorld) :
    Option ConvertedImageRecord :=
  match w.open_result, w.save_ok, w.stat_source, w.stat_output with
  | some image, true, some _, some _ =>
    some { source_file := name,
           output_file := build_output_name name opts index,
           api_url := build_api_url opts.api_base_url (build_output_name name opts index),
           metadata := extract_exif_data image }
  | _, _, _, _ => none

/-- Bytes a file contributes to `input_total_bytes`: its source size when
the per-file sequence reaches the source `stat` call and that call
succeeds, else nothing. -/
def inputContribution (w : FileWorld) : Nat :=
  match w.open_result, w.save_ok, w.stat_source with
  | some _, true, some n => n
  | _, _, _ => 0

/-- Bytes a file contributes to `output_total_bytes`: its output size when
the sequence additionally completes the output `stat` call. -/
def outputContribution (w : FileWorld) : Nat :=
  match w.open_result, w.save_ok, w.stat_source, w.stat_output with
  | some _, true, some _, some n => n
  | _, _, _, _ => 0

/-- The output names carried by the attempt events of a trace, in order. -/
def attemptedNames (events : List RunEvent) : List String :=
  events.filterMap
    (fun e =>
      match e with
      | .fileAttempt _ _ out => some out
      | _ => none)

/-! ## UI validation and start-up path (src/app/ui/main_window.py) -/

/-- `o.isSome ∧ o.val ≤ 0` as the source's `width is not None and width <= 0`. -/
def nonposOpt (o : Option Int) : Bool :=
  match o with
  | some x => decide (x ≤ 0)
  | none => false

/-- `MainWindow._parse_resize_values`: the resize-directive validation run
before a conversion starts.  Errors are the `ValueError`s the source
raises; `int()` failures propagate the same way. -/
def parse_resize_values (resize_enabled : Bool) (width_text height_text : String)
    (preserve_aspect : Bool) : Except String (Option Int × Option Int) :=
  if resize_enabled = false then Except.ok (none, none)
  else
    let wt := pyStrip width_text
    let ht := pyStrip height_text
    if wt = "" ∧ ht = "" then
      Except.error "Provide at least width or height when resize is enabled."
    else
      match (if wt = "" then Except.ok none else (pyInt wt).map some :
          Except String (Option Int)) with
      | .error e => Except.error e
      | .ok w =>
        match (if ht = "" then Except.ok none else (pyInt ht).map some :
            Except String (Option Int)) with
        | .error e => Except.error e
        | .ok h =>
          if nonposOpt w then Except.error "Resize width must be greater than zero."
          else if nonposOpt h then Except.error "Resize height must be greater than zero."
          else if preserve_aspect ∧ w.isSome ∧ h.isSome then
            Except.error "With preserve aspect ratio enabled, specify only width or only height."
          else Except.ok (w, h)

/-- `MainWindow._start_conversion` up to handing the options to the worker
thread: the guards for missing images and missing output folder, the resize
validation (whose `ValueError` is shown and aborts), option assembly, the
conflict prompt, and — only if none of these aborted — the run itself.
`none` means the run was never started: no file decoded or encoded, no
manifest written. -/
def start_conversion (selected_files : List String) (output_dir : Option String)
    (quality_slider : Nat) (export_name_entry api_url_entry : String)
    (resize_enabled : Bool) (width_text height_text : String) (preserve_aspect : Bool)
    (disk_exists : String → Bool) (proceed_on_conflict : Bool)
    (world : Nat → FileWorld) : Option RunOutput :=
  if selected_files.isEmpty then none
  else
    match output_dir with
    | none => none
    | some base =>
      match parse_resize_values resize_enabled width_text height_text preserve_aspect with
      | .error _ => none
      | .ok (w, h) =>
        let opts : ConversionOptions := {
          input_files := selected_files,
          output_dir := resolve_effective_output_dir base,
          quality := quality_slider,
          export_name := if pyStrip export_name_entry = "" then none
            else some (pyStrip export_name_entry),
          api_base_url := if pyStrip api_url_entry = "" then none
            else some (pyStrip api_url_entry),
          resize_enabled := resize_enabled,
          resize_width := w,
          resize_height := h,
          preserve_aspect := preserve_aspect }
        let conflicts := detect_output_conflicts disk_exists opts (get_expected_output_names opts)
        if conflicts.has_conflicts ∧ proceed_on_conflict = false then none
        else some (run opts world)

/-! ## Loop lemmas -/

/-- Closed form of one loop iteration: exactly one attempt event, one
counter incremented, and the contributions of `recordOf`,
`inputContribution` and `outputContribution`. -/
theorem processFile_eq (opts : ConversionOptions) (i : Nat) (name : String) (w : FileWorld)
    (st : RunState) :
    processFile opts i name w st = {
      succeeded := st.succeeded + (recordOf opts i name w).toList.length,
      failed := st.failed + (1 - (recordOf opts i name w).toList.length),
      input_total := st.input_total + inputContribution w,
      output_total := st.output_total + outputContribution w,
      records := st.records ++ (recordOf opts i name w).toList,
      events := st.events ++ [RunEvent.fileAttempt i name (build_output_name name opts i)] } := by
  rcases w with ⟨o, s, ss, so⟩
  cases o <;> cases s <;> cases ss <;> cases so <;>
    simp [processFile, recordOf, inputContribution, outputContribution]

/-- Per-file success/failure increments sum to one attempt. -/
theorem processFile_counters (opts : ConversionOptions) (i : Nat) (name : String)
    (w : FileWorld) (st : RunState) :
    (processFile opts i name w st).succeeded + (processFile opts i name w st).failed =
      st.succeeded + st.failed + 1 := by
  rw [processFile_eq]
  rcases h : recordOf opts i name w with _ | r <;> simp <;> omega

/-- Closed form of the whole loop. -/
theorem runLoop_eq (opts : ConversionOptions) (world : Nat → FileWorld) :
    ∀ (l : List (Nat × String)) (st : RunState),
    runLoop opts world l st = {
      succeeded := st.succeeded + (l.filterMap (fun p => recordOf opts p.1 p.2 (world p.1))).length,
      failed := st.failed +
        (l.length - (l.filterMap (fun p => recordOf opts p.1 p.2 (world p.1))).length),
      input_total := st.input_total + (l.map (fun p => inputContribution (world p.1))).sum,
      output_total := st.output_total + (l.map (fun p => outputContribution (world p.1))).sum,
      records := st.records ++ l.filterMap (fun p => recordOf opts p.1 p.2 (world p.1)),
      events := st.events ++
        l.map (fun p => RunEvent.fileAttempt p.1 p.2 (build_output_name p.2 opts p.1)) } := by
  intro l
  induction l with
  | nil => intro st; simp [runLoop]
  | cons p rest ih =>
    intro st
    rw [runLoop, ih, processFile_eq]
    rcases h : recordOf opts p.1 p.2 (world p.1) with _ | r <;>
      simp [h, List.filterMap_cons] <;>
      constructor <;>
      first
        | omega
        | (have hle := List.length_filterMap_le
            (fun q => recordOf opts q.1 q.2 (world q.1)) rest
           omega)

/-! ## Claim theorems -/

/-- C1: For every run of `BatchConverter.run` over any list of input files
and any pattern of per-file outcomes, the returned `BatchResult` satisfies
`succeeded + failed = total = len(input_files)`: each attempted file
increments exactly one of the two counters, wherever in the per-file
sequence a failure occurs. -/
theorem c1_batch_counters (opts : ConversionOptions) (world : Nat → FileWorld) :
    (run opts world).result.succeeded + (run opts world).result.failed
      = (run opts world).result.total ∧
    (run opts world).result.total = opts.input_files.length := by
  have h := runLoop_eq opts world (List.enumFrom 1 opts.input_files)
    { succeeded := 0, failed := 0, input_total := 0, output_total := 0,
      records := [], events := [] }
  have hle := List.length_filterMap_le (fun p => recordOf opts p.1 p.2 (world p.1))
    (List.enumFrom 1 opts.input_files)
  have hlen : (List.enumFrom 1 opts.input_files).length = opts.input_files.length := by
    simp [List.enumFrom_length]
  constructor
  · simp only [run, h]
    omega
  · simp [run]

/-- Helper: the output names attempted by a run are the per-index results
of `build_output_name`, whatever the world does. -/
theorem attemptedNames_run (opts : ConversionOptions) (world : Nat → FileWorld) :
    attemptedNames (run opts world).events
      = (List.enumFrom 1 opts.input_files).map (fun p => build_output_name p.2 opts p.1) := by
  have h := runLoop_eq opts world (List.enumFrom 1 opts.input_files)
    { succeeded := 0, failed := 0, input_total := 0, output_total := 0,
      records := [], events := [] }
  have aux : ∀ (l : List (Nat × String)),
      List.filterMap (fun p : Nat × String => some (build_output_name p.2 opts p.1)) l
        = List.map (fun p : Nat × String => build_output_name p.2 opts p.1) l := by
    intro l
    induction l with
    | nil => rfl
    | cons p rest ih => simp [List.filterMap_cons, ih]
  simp [run, h, attemptedNames, List.filterMap_append, List.filterMap_map, Function.comp]
  exact aux _

/-- C2: For every run, the event trace consists of exactly one attempt per
input file, in order, followed by a single manifest write whose payload is
the ordered records of exactly the successful files (failed files skipped);
the manifest length equals `succeeded`. -/
theorem c2_manifest_once_ordered (opts : ConversionOptions) (world : Nat → FileWorld) :
    (run opts world).events =
      ((List.enumFrom 1 opts.input_files).map
        (fun p => RunEvent.fileAttempt p.1 p.2 (build_output_name p.2 opts p.1))) ++
      [RunEvent.manifestWrite ((List.enumFrom 1 opts.input_files).filterMap
        (fun p => recordOf opts p.1 p.2 (world p.1)))] ∧
    (run opts world).records =
      (List.enumFrom 1 opts.input_files).filterMap
        (fun p => recordOf opts p.1 p.2 (world p.1)) ∧
    (run opts world).records.length = (run opts world).result.succeeded ∧
    ((run opts world).events.countP
      (fun e => match e with | .manifestWrite _ => true | _ => false)) = 1 := by
  have h := runLoop_eq opts world (List.enumFrom 1 opts.input_files)
    { succeeded := 0, failed := 0, input_total := 0, output_total := 0,
      records := [], events := [] }
  refine ⟨?_, ?_, ?_, ?_⟩
  · simp [run, h]
  · simp [run, h]
  · simp [run, h]
  · simp [run, h, List.countP_append, List.countP_map, Function.comp, List.countP_eq_zero]

/-- C3 (counterexample): with `photo.webp` already existing in the output
directory and no export name, the namer still yields `photo.webp` — the
conflict detector reports it as a duplicate — and not `photo-1.webp` as the
claim requires. -/
theorem c3_counterexample :
    get_expected_output_names
      { input_files := ["photo.jpg"], output_dir := "/out", quality := 90 } = ["photo.webp"] ∧
    (detect_output_conflicts (fun p => p == "/out/photo.webp")
      { input_files := ["photo.jpg"], output_dir := "/out", quality := 90 }
      ["photo.webp"]).duplicate_files = ["photo.webp"] ∧
    ("photo.webp" : String) ≠ "photo-1.webp" := by
  refine ⟨by rfl, by rfl, by decide⟩

/-- C3 (amended): the code has no overwrite switch and performs no
collision disambiguation at all — the names a run computes are identical
under every filesystem/world state (never suffixed), so a name that already
exists is reused as-is and the file overwritten. -/
theorem c3_no_disambiguation :
    (∀ (opts : ConversionOptions) (w w' : Nat → FileWorld),
      attemptedNames (run opts w).events = attemptedNames (run opts w').events) ∧
    (∀ (opts : ConversionOptions) (world : Nat → FileWorld),
      attemptedNames (run opts world).events
        = (List.enumFrom 1 opts.input_files).map (fun p => build_output_name p.2 opts p.1)) := by
  refine ⟨fun opts w w' => ?_, fun opts world => attemptedNames_run opts world⟩
  rw [attemptedNames_run, attemptedNames_run]

/-- C6: `get_expected_output_names` returns, element-wise in input order,
exactly the output name the run path computes for the same index, for every
world (and, being a pure function of the options alone, performs no I/O or
encoding). -/
theorem c6_expected_matches_run (opts : ConversionOptions) (world : Nat → FileWorld) :
    attemptedNames (run opts world).events = get_expected_output_names opts := by
  rw [attemptedNames_run]
  rfl

/-- C10: `bytes_saved` is the exact integer difference of the byte totals
with no clamping — negative whenever the outputs are cumulatively larger —
and each total accumulates contributions only from files whose per-file
sequence reached (and completed) the corresponding post-encode `stat`
call. -/
theorem c10_bytes_saved (opts : ConversionOptions) (world : Nat → FileWorld) :
    (run opts world).result.bytes_saved
      = ((run opts world).result.input_total_bytes : Int)
        - ((run opts world).result.output_total_bytes : Int) ∧
    (run opts world).result.input_total_bytes
      = ((List.enumFrom 1 opts.input_files).map (fun p => inputContribution (world p.1))).sum ∧
    (run opts world).result.output_total_bytes
      = ((List.enumFrom 1 opts.input_files).map (fun p => outputContribution (world p.1))).sum ∧
    ((run opts world).result.input_total_bytes < (run opts world).result.output_total_bytes →
      (run opts world).result.bytes_saved < 0) := by
  have h := runLoop_eq opts world (List.enumFrom 1 opts.input_files)
    { succeeded := 0, failed := 0, input_total := 0, output_total := 0,
      records := [], events := [] }
  refine ⟨rfl, ?_, ?_, ?_⟩
  · simp [run, h]
  · simp [run, h]
  · intro hlt
    simp only [BatchResult.bytes_saved]
    omega

/-- Inputs for the C10 witness: one file whose encoded output (20 bytes) is
larger than its source (10 bytes). -/
def c10world : Nat → FileWorld := fun _ =>
  { open_result := some
      { width := 1, height := 1, exifTags := [], hasGetIfd := false, getIfdResult := .ok [] },
    save_ok := true, stat_source := some 10, stat_output := some 20 }

/-- Witness for C10 at a concrete run where the output is larger than the
input: `bytes_saved` really goes negative. -/
theorem c10_bytes_saved_witness :
    (run { input_files := ["a.jpg"], output_dir := "/out", quality := 90 } c10world).result.input_total_bytes
      < (run { input_files := ["a.jpg"], output_dir := "/out", quality := 90 } c10world).result.output_total_bytes ∧
    (run { input_files := ["a.jpg"], output_dir := "/out", quality := 90 } c10world).result.bytes_saved < 0 :=
  ⟨by decide,
   (c10_bytes_saved { input_files := ["a.jpg"], output_dir := "/out", quality := 90 } c10world).2.2.2
     (by decide)⟩

/-- C5: For every input file and 1-based index, the output name is
`{trimmed export_name}-{index}.webp` when the export name is set and
non-blank after trimming, and `{source stem}.webp` otherwise; in
particular, `export_name="portfolio"` with 3 inputs yields
`portfolio-1.webp`, `portfolio-2.webp`, `portfolio-3.webp` in input order,
and with no export name `IMG_001.JPG` yields `IMG_001.webp`. -/
theorem c5_naming_rule :
    (∀ (name en : String) (opts : ConversionOptions) (i : Nat),
      opts.export_name = some en → pyStrip en ≠ "" →
      build_output_name name opts i = pyStrip en ++ "-" ++ toString i ++ ".webp") ∧
    (∀ (name : String) (opts : ConversionOptions) (i : Nat),
      (opts.export_name = none ∨ ∃ en, opts.export_name = some en ∧ pyStrip en = "") →
      build_output_name name opts i = pyStem name ++ ".webp") ∧
    get_expected_output_names
      { input_files := ["a.jpg", "b.png", "c.tif"], output_dir := "/out", quality := 90,
        export_name := some "portfolio" }
      = ["portfolio-1.webp", "portfolio-2.webp", "portfolio-3.webp"] ∧
    get_expected_output_names
      { input_files := ["IMG_001.JPG"], output_dir := "/out", quality := 90 }
      = ["IMG_001.webp"] := by
  refine ⟨?_, ?_, by rfl, by rfl⟩
  · intro name en opts i he hs
    have hne : en ≠ "" := by
      intro h
      apply hs
      rw [h]
      rfl
    simp [build_output_name, he, hne, hs]
  · intro name opts i hcase
    rcases hcase with h | ⟨en, he, hs⟩
    · simp [build_output_name, h]
    · simp [build_output_name, he, hs]

/-- Witness for C5: a padded export name is trimmed and indexed; a
whitespace-only export name falls back to the source stem. -/
theorem c5_naming_rule_witness :
    build_output_name "x.jpg"
      { input_files := [], output_dir := "", quality := 90, export_name := some " portfolio " } 2
      = "portfolio-2.webp" ∧
    build_output_name "IMG_001.JPG"
      { input_files := [], output_dir := "", quality := 90, export_name := some "   " } 3
      = "IMG_001.webp" :=
  ⟨c5_naming_rule.1 "x.jpg" " portfolio "
      { input_files := [], output_dir := "", quality := 90, export_name := some " portfolio " } 2
      rfl (by decide),
   c5_naming_rule.2.1 "IMG_001.JPG"
      { input_files := [], output_dir := "", quality := 90, export_name := some "   " } 3
      (Or.inr ⟨"   ", rfl, by decide⟩)⟩

/-- C7: metadata extraction is total (`extract_exif_data` returns a value
for every image handle), and a failure of the auxiliary EXIF-IFD read is
swallowed: the extraction result is identical to the one for an image whose
IFD read succeeds with no entries, so the failure contributes no fields and
never fails the extraction or the file. -/
theorem c7_ifd_failure_swallowed (img : ImageHandle) (e : String)
    (he : img.getIfdResult = Except.error e) :
    extract_exif_data img
      = extract_exif_data { img with getIfdResult := Except.ok [] } := by
  have hb : exifByName img = exifByName { img with getIfdResult := Except.ok [] } := by
    simp [exifByName, he]
  simp [extract_exif_data, extractData, hb]

/-- Concrete image for the C7 witness: a camera-model tag plus an EXIF IFD
whose read raises. -/
def c7img : ImageHandle :=
  { width := 10, height := 20, exifTags := [(272, PyVal.str "CamX")],
    hasGetIfd := true, getIfdResult := Except.error "corrupt EXIF IFD" }

/-- Witness for C7: the extraction on a failing-IFD image equals the
extraction with an empty IFD, and still yields the other fields. -/
theorem c7_ifd_failure_swallowed_witness :
    extract_exif_data c7img = extract_exif_data { c7img with getIfdResult := Except.ok [] } ∧
    extract_exif_data c7img
      = [("camera_model", MetaVal.raw (PyVal.str "CamX")),
         ("image_width", MetaVal.int 10), ("image_height", MetaVal.int 20)] :=
  ⟨c7_ifd_failure_swallowed c7img "corrupt EXIF IFD" rfl, by rfl⟩

/-- C8: `shutter_speed` formatting — unconvertible or non-positive values
are omitted; values below 1 are rendered as `limit_denominator(8000)`
(`"num/den"`), which is the value itself whenever its denominator is
already at most 8000; values at or above 1 are rendered as a 4-decimal
fixed string with trailing zeros and a trailing point stripped.  Concretely
1/250 gives `"1/250"`, 2.0 gives `"2"`, 2.5 gives `"2.5"`, and
10001/30000 gives the best 8000-bounded approximation `"2667/8000"`. -/
theorem c8_shutter_speed_format :
    (∀ v, to_float v = none → format_fraction v = none) ∧
    (∀ v q, to_float v = some q → q ≤ 0 → format_fraction v = none) ∧
    (∀ v q, to_float v = some q → 0 < q → q < 1 →
      format_fraction v
        = some (toString (limitDenominator q 8000).num ++ "/"
            ++ toString (limitDenominator q 8000).den)) ∧
    (∀ v q, to_float v = some q → 1 ≤ q →
      format_fraction v = some (rstripChar '.' (rstripChar '0' (pyFormatFixed q 4)))) ∧
    (∀ q : Rat, q.den ≤ 8000 → limitDenominator q 8000 = q) ∧
    format_fraction (some (PyVal.rational 1 250)) = some "1/250" ∧
    format_fraction (some (PyVal.float 2)) = some "2" ∧
    format_fraction (some (PyVal.float (mkRat 5 2))) = some "2.5" ∧
    format_fraction (some (PyVal.rational 10001 30000)) = some "2667/8000" := by
  refine ⟨?_, ?_, ?_, ?_, ?_, by decide, by decide, by decide, by decide⟩
  · intro v h
    simp [format_fraction, h]
  · intro v q h hq
    simp [format_fraction, h, hq]
  · intro v q h hq0 hq1
    simp [format_fraction, h, not_le.mpr hq0, hq1]
  · intro v q h hq1
    simp [format_fraction, h, not_le.mpr (lt_of_lt_of_le one_pos hq1), not_lt.mpr hq1]
  · intro q hden
    simp [limitDenominator, hden]

/-- Witness for C8 applying each conditional branch at concrete inputs:
an unconvertible string, a zero exposure, 1/4 second, and 2.5 seconds. -/
theorem c8_shutter_speed_format_witness :
    format_fraction (some (PyVal.str "bad")) = none ∧
    format_fraction (some (PyVal.int 0)) = none ∧
    format_fraction (some (PyVal.rational 1 4))
      = some (toString (limitDenominator (mkRat 1 4) 8000).num ++ "/"
          ++ toString (limitDenominator (mkRat 1 4) 8000).den) ∧
    format_fraction (some (PyVal.float (mkRat 5 2)))
      = some (rstripChar '.' (rstripChar '0' (pyFormatFixed (mkRat 5 2) 4))) ∧
    limitDenominator (mkRat 1 250) 8000 = mkRat 1 250 :=
  ⟨c8_shutter_speed_format.1 (some (PyVal.str "bad")) rfl,
   c8_shutter_speed_format.2.1 (some (PyVal.int 0)) 0 (by decide) (by decide),
   c8_shutter_speed_format.2.2.1 (some (PyVal.rational 1 4)) (mkRat 1 4)
     (by decide) (by decide) (by decide),
   c8_shutter_speed_format.2.2.2.1 (some (PyVal.float (mkRat 5 2))) (mkRat 5 2)
     (by decide) (by decide),
   c8_shutter_speed_format.2.2.2.2.1 (mkRat 1 250) (by decide)⟩

/-- C4: For every configuration with an invalid resize directive — resize
enabled but neither dimension given; a non-positive dimension; or both
dimensions given while aspect-ratio preservation is requested — the resize
validation rejects with a `ValueError` before any option object is built,
and the start-up path never invokes the run: no file is decoded or encoded
and no manifest is written. -/
theorem c4_resize_validation
    (resize_enabled : Bool) (width_text height_text : String) (preserve_aspect : Bool)
    (hre : resize_enabled = true)
    (hinv :
      (pyStrip width_text = "" ∧ pyStrip height_text = "")
      ∨ (∃ x : Int, x ≤ 0 ∧
          ((pyStrip width_text ≠ "" ∧ pyInt (pyStrip width_text) = Except.ok x)
            ∨ (pyStrip height_text ≠ "" ∧ pyInt (pyStrip height_text) = Except.ok x)))
      ∨ (preserve_aspect = true ∧ pyStrip width_text ≠ "" ∧ pyStrip height_text ≠ "")) :
    (∃ msg, parse_resize_values resize_enabled width_text height_text preserve_aspect
        = Except.error msg) ∧
    (∀ files dir q en au de pr world,
      start_conversion files dir q en au resize_enabled width_text height_text preserve_aspect
        de pr world = none) := by
  subst hre
  have herr : ∃ msg, parse_resize_values true width_text height_text preserve_aspect
      = Except.error msg := by
    by_cases hw0 : pyStrip width_text = ""
    · by_cases hh0 : pyStrip height_text = ""
      · exact ⟨"Provide at least width or height when resize is enabled.", by simp [parse_resize_values, hw0, hh0]⟩
      · rcases hinv with ⟨_, hh⟩ | ⟨x, hx, ⟨hwne, _⟩ | ⟨_, hph⟩⟩ | ⟨_, hwne, _⟩
        · exact absurd hh hh0
        · exact absurd hw0 hwne
        · exact ⟨"Resize height must be greater than zero.", by simp [parse_resize_values, hw0, hh0, hph, Except.map, nonposOpt, hx]⟩
        · exact absurd hw0 hwne
    · by_cases hh0 : pyStrip height_text = ""
      · rcases hinv with ⟨hw, _⟩ | ⟨x, hx, ⟨_, hpw⟩ | ⟨hhne, _⟩⟩ | ⟨_, _, hhne⟩
        · exact absurd hw hw0
        · exact ⟨"Resize width must be greater than zero.", by simp [parse_resize_values, hw0, hh0, hpw, Except.map, nonposOpt, hx]⟩
        · exact absurd hh0 hhne
        · exact absurd hh0 hhne
      · rcases hinv with ⟨hw, _⟩ | ⟨x, hx, ⟨_, hpw⟩ | ⟨_, hph⟩⟩ | ⟨hpa, _, _⟩
        · exact absurd hw hw0
        · rcases hph2 : pyInt (pyStrip height_text) with e | y
          · exact ⟨e, by simp [parse_resize_values, hw0, hh0, hpw, hph2, Except.map]⟩
          · exact ⟨"Resize width must be greater than zero.", by
              simp [parse_resize_values, hw0, hh0, hpw, hph2, Except.map, nonposOpt, hx]⟩
        · rcases hpw2 : pyInt (pyStrip width_text) with e | y
          · exact ⟨e, by simp [parse_resize_values, hw0, hh0, hpw2, Except.map]⟩
          · by_cases hy : y ≤ 0
            · exact ⟨"Resize width must be greater than zero.", by
                simp [parse_resize_values, hw0, hh0, hpw2, hph, Except.map, nonposOpt, hy]⟩
            · exact ⟨"Resize height must be greater than zero.", by
                simp [parse_resize_values, hw0, hh0, hpw2, hph, Except.map, nonposOpt, hy, hx]⟩
        · rcases hpw2 : pyInt (pyStrip width_text) with e | y
          · exact ⟨e, by simp [parse_resize_values, hw0, hh0, hpw2, Except.map]⟩
          · rcases hph2 : pyInt (pyStrip height_text) with e | z
            · exact ⟨e, by simp [parse_resize_values, hw0, hh0, hpw2, hph2, Except.map]⟩
            · by_cases hy : y ≤ 0
              · exact ⟨"Resize width must be greater than zero.", by
                  simp [parse_resize_values, hw0, hh0, hpw2, hph2, Except.map, nonposOpt, hy]⟩
              · by_cases hz : z ≤ 0
                · exact ⟨"Resize height must be greater than zero.", by
                    simp [parse_resize_values, hw0, hh0, hpw2, hph2, Except.map, nonposOpt,
                      hy, hz]⟩
                · exact ⟨"With preserve aspect ratio enabled, specify only width or only height.", by
                    simp [parse_resize_values, hw0, hh0, hpw2, hph2, Except.map, nonposOpt,
                      hy, hz, hpa]⟩
  refine ⟨herr, ?_⟩
  obtain ⟨msg, hmsg⟩ := herr
  intro files dir q en au de pr world
  rcases dir with _ | base
  · by_cases hf : files.isEmpty <;> simp [start_conversion, hf]
  · by_cases hf : files.isEmpty <;> simp [start_conversion, hf, hmsg]

/-- Witness for C4: a zero width with resize enabled is rejected by the
validation, and the start-up path refuses to start the run. -/
theorem c4_resize_validation_witness :
    parse_resize_values true "0" "" true
      = Except.error "Resize width must be greater than zero." ∧
    start_conversion ["a.jpg"] (some "/base") 90 "" "" true "0" "" true
      (fun _ => false) false
      (fun _ => { open_result := none, save_ok := false,
                  stat_source := none, stat_output := none }) = none := by
  have h := c4_resize_validation true "0" "" true rfl
    (Or.inr (Or.inl ⟨0, by decide, Or.inl ⟨by decide, by decide⟩⟩))
  exact ⟨by rfl, h.2 ["a.jpg"] (some "/base") 90 "" "" (fun _ => false) false _⟩

/-- A formatted aperture string is never empty (so the cleaning step keeps
it). -/
theorem f_slash_ne_empty (s : String) : ("f/" ++ s) ≠ "" := by
  intro h
  have h2 : ('f' :: '/' :: s.data) = ([] : List Char) := congrArg String.data h
  exact List.cons_ne_nil _ _ h2

/-- A formatted focal-length string is never empty. -/
theorem mm_suffix_ne_empty (s : String) : (s ++ "mm") ≠ "" := by
  intro h
  have h2 : (s.data ++ ['m', 'm']) = ([] : List Char) := congrArg String.data h
  rcases List.append_eq_nil.mp h2 with ⟨_, h3⟩
  exact List.cons_ne_nil _ _ h3

/-- An image carrying exactly an F-number tag value and a focal-length tag
value, the family over which the aperture/focal-length claims quantify. -/
def apfImage (fv flv : PyVal) : ImageHandle :=
  { width := 4032, height := 3024, exifTags := [(33437, fv), (37386, flv)],
    hasGetIfd := false, getIfdResult := Except.ok [] }

/-- Closed form of the extraction on the `apfImage` family. -/
theorem extract_apfImage (fv flv : PyVal) :
    extract_exif_data (apfImage fv flv)
      = (match to_float (some fv) with
         | some q =>
           if q = 0 then [] else [("aperture", MetaVal.str ("f/" ++ pyFormatFixed q 1))]
         | none => []) ++
        (match to_float (some flv) with
         | some q =>
           if q = 0 then []
           else [("focal_length", MetaVal.str (pyFormatFixed q 0 ++ "mm"))]
         | none => []) ++
        [("image_width", MetaVal.int 4032), ("image_height", MetaVal.int 3024)] := by
  have hdata : extractData (apfImage fv flv) =
      [("iso", none), ("shutter_speed", none),
       ("aperture",
         match to_float (some fv) with
         | some q => if q = 0 then none else some (MetaVal.str ("f/" ++ pyFormatFixed q 1))
         | none => none),
       ("camera_model", none), ("camera_make", none), ("lens", none),
       ("focal_length",
         match to_float (some flv) with
         | some q => if q = 0 then none else some (MetaVal.str (pyFormatFixed q 0 ++ "mm"))
         | none => none),
       ("datetime_original", none), ("software", none), ("artist", none),
       ("image_width", some (MetaVal.int 4032)),
       ("image_height", some (MetaVal.int 3024))] := rfl
  rw [extract_exif_data, hdata]
  rcases to_float (some fv) with _ | qa <;> rcases to_float (some flv) with _ | qb
  · rfl
  · by_cases hqb : qb = 0 <;>
      simp [List.filterMap_cons, isEmptyString, hqb, mm_suffix_ne_empty]
  · by_cases hqa : qa = 0 <;>
      simp [List.filterMap_cons, isEmptyString, hqa, f_slash_ne_empty]
  · by_cases hqa : qa = 0 <;> by_cases hqb : qb = 0 <;>
      simp [List.filterMap_cons, isEmptyString, hqa, hqb, f_slash_ne_empty, mm_suffix_ne_empty]

/-- C9 (counterexample): an F-number of `-2` and a focal length of `-50`
convert to negative floats, yet the `aperture` and `focal_length` keys are
present, formatted with the negative value — the code tests Python
truthiness, not `> 0`, so the claim's "omitted when negative" is false. -/
theorem c9_counterexample :
    extract_exif_data (apfImage (PyVal.int (-2)) (PyVal.int (-50)))
      = [("aperture", MetaVal.str "f/-2.0"), ("focal_length", MetaVal.str "-50mm"),
         ("image_width", MetaVal.int 4032), ("image_height", MetaVal.int 3024)] ∧
    to_float (some (PyVal.int (-2))) = some (-2) ∧ ((-2 : Rat) < 0) ∧
    to_float (some (PyVal.int (-50))) = some (-50) ∧ ((-50 : Rat) < 0) := by
  refine ⟨by decide, by decide, by decide, by decide, by decide⟩

/-- C9 (amended): for every F-number and focal-length tag value, the
`aperture` key is present (as `f/{1 decimal}`) iff the value converts to a
float and that float is non-zero — Python truthiness — and likewise
`focal_length` (as `{rounded}mm`); absent, unconvertible or zero values are
omitted, but negative ones are kept. -/
theorem c9_truthiness (fv flv : PyVal) :
    (∀ q : Rat, to_float (some fv) = some q → q ≠ 0 →
      ("aperture", MetaVal.str ("f/" ++ pyFormatFixed q 1))
        ∈ extract_exif_data (apfImage fv flv)) ∧
    ((to_float (some fv) = none ∨ to_float (some fv) = some 0) →
      ∀ m, ("aperture", m) ∉ extract_exif_data (apfImage fv flv)) ∧
    (∀ q : Rat, to_float (some flv) = some q → q ≠ 0 →
      ("focal_length", MetaVal.str (pyFormatFixed q 0 ++ "mm"))
        ∈ extract_exif_data (apfImage fv flv)) ∧
    ((to_float (some flv) = none ∨ to_float (some flv) = some 0) →
      ∀ m, ("focal_length", m) ∉ extract_exif_data (apfImage fv flv)) := by
  refine ⟨?_, ?_, ?_, ?_⟩
  · intro q hq hq0
    rw [extract_apfImage, hq]
    simp [hq0]
  · intro hor m
    rw [extract_apfImage]
    rcases hB : to_float (some flv) with _ | qb
    · rcases hor with h | h <;> simp [h]
    · rcases hor with h | h <;> by_cases hqb : qb = 0 <;> simp [h, hqb]
  · intro q hq hq0
    rw [extract_apfImage, hq]
    rcases hA : to_float (some fv) with _ | qa
    · simp [hq0]
    · by_cases hqa : qa = 0 <;> simp [hq0, hqa]
  · intro hor m
    rw [extract_apfImage]
    rcases hA : to_float (some fv) with _ | qa
    · rcases hor with h | h <;> simp [h]
    · rcases hor with h | h <;> by_cases hqa : qa = 0 <;> simp [h, hqa]

/-- Witness for C9 (amended): an F-number of 28/10 yields `f/2.8` and a
focal length of 50 yields `50mm`; a zero F-number is omitted. -/
theorem c9_truthiness_witness :
    ("aperture", MetaVal.str "f/2.8")
      ∈ extract_exif_data (apfImage (PyVal.rational 28 10) (PyVal.int 50)) ∧
    ("focal_length", MetaVal.str "50mm")
      ∈ extract_exif_data (apfImage (PyVal.rational 28 10) (PyVal.int 50)) ∧
    (∀ m, ("aperture", m) ∉ extract_exif_data (apfImage (PyVal.int 0) (PyVal.int 50))) :=
  ⟨(c9_truthiness (PyVal.rational 28 10) (PyVal.int 50)).1 (mkRat 14 5) (by decide) (by decide),
   (c9_truthiness (PyVal.rational 28 10) (PyVal.int 50)).2.2.1 50 (by decide) (by decide),
   (c9_truthiness (PyVal.int 0) (PyVal.int 50)).2.1 (Or.inr (by decide))⟩

end PhotoOpt
